import Mathlib

/-!
Shallow embedding of `function/function.go` (package `function` of the apex
repository): the deployment decision engine (`DeployCode`, `Create`, `Update`),
the alias/version manager (`Rollback`, `RollbackVersion`), the invocation
client (`Invoke`), the artifact builder (`Zip`) and config validation (`Open`).

The remote Lambda service (`f.Service`, an external collaborator) is modelled
by records holding the result of each remote call the operation makes; each
operation returns the ordered list of remote *mutation* calls it issued
(`mutations`), the Info-level log lines it emitted (`logs`), and its result.
Go errors are the inductive `Err`: `aws` models an `awserr.Error` (the type
assertion `err.(awserr.Error)` succeeds exactly on this constructor),
`generic` models `errors.New` / `fmt.Errorf` / stdlib errors, and
`invocation` models the typed `*InvokeError`.  External pure collaborators
(`utils.Sha256`, `json.Marshal` of maps, base64, the shim assets) are
universally quantified function/byte-list parameters.
-/

namespace Apex

/-- Bytes, as in the Go `[]byte`. -/
abbrev Bytes := List Nat

/-- `InvokeError` of function.go: the typed error decoded from a failed
invocation payload (json tags errorMessage / errorType / stackTrace), plus the
out-of-band Handled flag. -/
structure InvokeError where
  message : String
  errorType : String
  stack : List String
  handled : Bool
  deriving Repr, DecidableEq

/-- Go `error` values that flow through function.go. -/
inductive Err where
  /-- an `awserr.Error` with its code and message -/
  | aws (code message : String)
  /-- any other error value (`errors.New`, `fmt.Errorf`, json errors, ...) -/
  | generic (message : String)
  /-- the typed `*InvokeError` -/
  | invocation (e : InvokeError)
  deriving Repr, DecidableEq

/-- Remote mutation calls issued through `f.Service`, with the arguments the
code passes (reads — GetFunction, GetAlias, ListVersionsByFunction — are not
mutations and are represented by their results in the environment records). -/
inductive Action where
  | createFunction (zip : Bytes) (publish : Bool)
  | updateFunctionCode (zip : Bytes) (publish : Bool)
  | createAlias (name version : String)
  | updateAlias (name version : String)
  deriving Repr, DecidableEq

/-- Outcome of one operation: a Go return value or a runtime panic. -/
inductive Result (α : Type) where
  | ok (val : α)
  | err (e : Err)
  | panicked
  deriving Repr, DecidableEq

/-- What one operation did: remote mutation calls in order, Info-level log
lines in order, and its outcome. -/
structure OpOut (α : Type) where
  mutations : List Action
  logs : List String
  result : Result α
  deriving Repr, DecidableEq

/-- `const CurrentAlias = "current"` -/
def CurrentAlias : String := "current"

/-- Invocation type strings (Go `InvocationType`). -/
def RequestResponse : String := "RequestResponse"

/-- Invocation type `Event` (asynchronous fire-and-forget). -/
def Event : String := "Event"

/-- Invocation type `DryRun`. -/
def DryRun : String := "DryRun"

/-! ## Create and Update -/

/-- Results of the remote calls `Create` makes: `CreateFunction` (on success
the published version `created.Version`) and `CreateAlias`. -/
structure CreateEnv where
  createFunctionRes : Except Err String
  createAliasRes : Except Err Unit

/-- `Function.Create`: call CreateFunction with the zip and `Publish: true`;
on error return it; otherwise create alias "current" at the returned version. -/
def Create (env : CreateEnv) (zip : Bytes) : OpOut Unit :=
  match env.createFunctionRes with
  | .error e => ⟨[Action.createFunction zip true], ["creating function"], .err e⟩
  | .ok version =>
    ⟨[Action.createFunction zip true, Action.createAlias CurrentAlias version],
     ["creating function", "creating alias"],
     match env.createAliasRes with
     | .error e => .err e
     | .ok _ => .ok ()⟩

/-- Results of the remote calls `Update` makes: `UpdateFunctionCode` (on
success the newly published version `updated.Version`) and `UpdateAlias`. -/
structure UpdateEnv where
  updateFunctionCodeRes : Except Err String
  updateAliasRes : Except Err Unit

/-- `Function.Update`: call UpdateFunctionCode with the zip and
`Publish: true`; on error return it; otherwise repoint alias "current" to the
returned version. -/
def Update (env : UpdateEnv) (zip : Bytes) : OpOut Unit :=
  match env.updateFunctionCodeRes with
  | .error e => ⟨[Action.updateFunctionCode zip true], ["updating function"], .err e⟩
  | .ok version =>
    ⟨[Action.updateFunctionCode zip true, Action.updateAlias CurrentAlias version],
     ["updating function", "updating alias"],
     match env.updateAliasRes with
     | .error e => .err e
     | .ok _ => .ok ()⟩

/-! ## DeployCode -/

/-- The slice of `GetFunction`'s output that DeployCode reads:
`info.Configuration.CodeSha256`. -/
structure GetFunctionOutput where
  codeSha256 : String
  deriving Repr, DecidableEq

/-- Results of the calls `DeployCode` makes: `ZipBytes` (the artifact build,
embedded separately as `Zip` below) and `GetFunction`, plus the environments of
the `Create` / `Update` it may run. -/
structure DeployCodeEnv where
  zipRes : Except Err Bytes
  infoRes : Except Err GetFunctionOutput
  createEnv : CreateEnv
  updateEnv : UpdateEnv

/-- `Function.DeployCode`, with `utils.Sha256` passed in as `sha`:
build the zip; query remote state with GetFunction; if that fails with the aws
code ResourceNotFoundException run `Create`; if it fails otherwise propagate
the error; otherwise compare the local hash with the remote CodeSha256 —
equal: log "unchanged" and succeed with no mutation; different: run `Update`. -/
def DeployCode (sha : Bytes → String) (env : DeployCodeEnv) : OpOut Unit :=
  match env.zipRes with
  | .error e => ⟨[], ["deploying"], .err e⟩
  | .ok zip =>
    match env.infoRes with
    | .error (Err.aws code message) =>
      if code == "ResourceNotFoundException" then
        let s := Create env.createEnv zip
        ⟨s.mutations, "deploying" :: s.logs, s.result⟩
      else ⟨[], ["deploying"], .err (Err.aws code message)⟩
    | .error e => ⟨[], ["deploying"], .err e⟩
    | .ok info =>
      if sha zip == info.codeSha256 then
        ⟨[], ["deploying", "unchanged"], .ok ()⟩
      else
        let s := Update env.updateEnv zip
        ⟨s.mutations, "deploying" :: s.logs, s.result⟩

/-! ## Rollback and RollbackVersion -/

/-- Results of the remote calls `Rollback` makes: `GetAlias` for "current"
(on success `alias.FunctionVersion`), `ListVersionsByFunction` (on success the
version strings, oldest first, `$LATEST` first), and `UpdateAlias`. -/
structure RollbackEnv where
  getAliasRes : Except Err String
  listVersionsRes : Except Err (List String)
  updateAliasRes : Except Err Unit

/-- `Function.Rollback`: read alias "current"; list versions; drop the first
entry (`versions := list.Versions[1:]` — on an empty listing this slice is out
of range and panics); require at least two remaining versions; roll the alias
back to the last version, or to the second-to-last when the alias already
points at the last. -/
def Rollback (env : RollbackEnv) : OpOut Unit :=
  match env.getAliasRes with
  | .error e => ⟨[], ["rolling back"], .err e⟩
  | .ok current =>
    let logs1 := ["rolling back", "current version: " ++ current]
    match env.listVersionsRes with
    | .error e => ⟨[], logs1, .err e⟩
    | .ok [] => ⟨[], logs1, .panicked⟩
    | .ok (_ :: versions) =>
      if versions.length < 2 then
        ⟨[], logs1, .err (Err.generic "Can\x27t rollback. Only one version deployed.")⟩
      else
        let latest := versions.getD (versions.length - 1) ""
        let prev := versions.getD (versions.length - 2) ""
        let rollback := if current == latest then prev else latest
        ⟨[Action.updateAlias CurrentAlias rollback],
         logs1 ++ ["rollback to version: " ++ rollback],
         match env.updateAliasRes with
         | .error e => .err e
         | .ok _ => .ok ()⟩

/-- Results of the remote calls `RollbackVersion` makes: `GetAlias` for
"current" and `UpdateAlias`. -/
structure RollbackVersionEnv where
  getAliasRes : Except Err String
  updateAliasRes : Except Err Unit

/-- `Function.RollbackVersion`: read alias "current"; refuse when the
requested version is the one currently deployed; otherwise repoint the alias
to it unconditionally (no local existence check). -/
def RollbackVersion (env : RollbackVersionEnv) (version : String) : OpOut Unit :=
  match env.getAliasRes with
  | .error e => ⟨[], ["rolling back"], .err e⟩
  | .ok current =>
    let logs1 := ["rolling back", "current version: " ++ current]
    if version == current then
      ⟨[], logs1, .err (Err.generic "Specified version currently deployed.")⟩
    else
      ⟨[Action.updateAlias CurrentAlias version], logs1,
       match env.updateAliasRes with
       | .error e => .err e
       | .ok _ => .ok ()⟩

/-! ## Invoke -/

/-- The `lambda.InvokeInput` the code constructs (FunctionName omitted: it is
a fixed field of the Function, not computed). -/
structure InvokeInput where
  clientContext : String
  invocationType : String
  logType : String
  qualifier : String
  payload : Bytes
  deriving Repr, DecidableEq

/-- The slice of `lambda.InvokeOutput` the code reads: the optional
FunctionError marker, the payload bytes and the optional base64 LogResult. -/
structure InvokeResponse where
  functionError : Option String
  payload : Bytes
  logResult : Option String
  deriving Repr, DecidableEq

/-- Collaborator results for one `Invoke` call: the two `json.Marshal` results
for event and context, the remote `Service.Invoke` as a function of the built
input, `json.Unmarshal` of an error payload into the three json-tagged
`InvokeError` fields (errorMessage, errorType, stackTrace), and base64
encode/decode. -/
structure InvokeEnv where
  eventBytes : Except String Bytes
  contextBytes : Except String Bytes
  invokeRes : InvokeInput → Except Err InvokeResponse
  unmarshalInvokeError : Bytes → Except String (String × String × List String)
  b64enc : Bytes → String
  b64dec : String → Bytes

/-- Outcome of `Invoke`: two byte streams (reply, logs), or a single error, or
a panic (nil LogResult dereference). -/
inductive InvokeOut where
  | streams (reply logs : Bytes)
  | failed (e : Err)
  | panicked
  deriving Repr, DecidableEq

/-- The request `Invoke` sends: base64 client context, the invocation kind,
LogType "Tail", Qualifier "current", the marshalled event as payload. -/
def mkInvokeInput (env : InvokeEnv) (kind : String) (ev ctx : Bytes) : InvokeInput :=
  ⟨env.b64enc ctx, kind, "Tail", CurrentAlias, ev⟩

/-- `Function.Invoke`: marshal event and context; invoke the remote; if the
response carries a FunctionError marker, build an `InvokeError` with
Handled = (marker == "Handled") and unmarshal the payload into it — an
unmarshal failure returns that json error instead; with no function error,
kind Event returns two empty streams; otherwise return the payload bytes and
the base64-decoded log tail (panicking if LogResult is nil). -/
def Invoke (env : InvokeEnv) (kind : String) : InvokeOut :=
  match env.eventBytes with
  | .error m => .failed (Err.generic m)
  | .ok ev =>
    match env.contextBytes with
    | .error m => .failed (Err.generic m)
    | .ok ctx =>
      match env.invokeRes (mkInvokeInput env kind ev ctx) with
      | .error e => .failed e
      | .ok res =>
        match res.functionError with
        | some marker =>
          match env.unmarshalInvokeError res.payload with
          | .error m => .failed (Err.generic m)
          | .ok (msg, ty, st) =>
            .failed (Err.invocation ⟨msg, ty, st, marker == "Handled"⟩)
        | none =>
          if kind == Event then .streams [] []
          else
            match res.logResult with
            | none => .panicked
            | some lr => .streams res.payload (env.b64dec lr)

/-! ## Zip -/

/-- One archive entry: a name (relative path) and content bytes. -/
structure ZipEntry where
  name : String
  content : Bytes
  deriving Repr, DecidableEq

/-- Collaborator inputs for `Zip`: whether the runtime satisfies
`runtime.CompiledRuntime` and its Build result; the `f.env` map (none when no
SetEnv call was made — Go nil) with `json.Marshal` for it; whether the runtime
is Shimmed and the two bundled shim assets; the entries `zip.AddDir(f.Path)`
appends (the source tree at relative paths) or its error; and the
`zip.Close()` result. -/
structure ZipEnv where
  compiled : Bool
  buildRes : Except String Unit
  envVars : Option (List (String × String))
  marshalEnv : List (String × String) → Bytes
  shimmed : Bool
  indexJs : Bytes
  bylineJs : Bytes
  addDirRes : Except Err (List ZipEntry)
  closeRes : Except Err Unit

/-- `Function.Zip`: for a compiled runtime run Build first (a failure aborts
with a wrapped "compiling: " error); add ".env.json" with the marshalled env
map when env is set; add the two shim assets "index.js" and "byline.js" when
the runtime is shimmed; add the source directory; close. The resulting entry
list is in insertion order. -/
def Zip (e : ZipEnv) : Except Err (List ZipEntry) :=
  match (if e.compiled then e.buildRes else .ok ()) with
  | .error m => .error (Err.generic ("compiling: " ++ m))
  | .ok _ =>
    let envEntries : List ZipEntry :=
      match e.envVars with
      | none => []
      | some vars => [⟨".env.json", e.marshalEnv vars⟩]
    let shimEntries : List ZipEntry :=
      if e.shimmed then [⟨"index.js", e.indexJs⟩, ⟨"byline.js", e.bylineJs⟩] else []
    match e.addDirRes with
    | .error er => .error er
    | .ok files =>
      match e.closeRes with
      | .error er => .error er
      | .ok _ => .ok (envEntries ++ shimEntries ++ files)

/-! ## Open -/

/-- `Config` of function.go (json fields description, runtime, memory,
timeout, role; runtime, memory, timeout and role carry `validate:"nonzero"`).
Memory and Timeout are Go int64; the values reaching the validator are far
from the 2^63 wrap, so they are modelled as Int. -/
structure Config where
  description : String
  runtime : String
  memory : Int
  timeout : Int
  role : String
  deriving Repr, DecidableEq

/-- `validator.Validate` on Config with the `nonzero` tags: every tagged field
differs from its zero value (empty string / 0). -/
def validateConfig (c : Config) : Bool :=
  c.runtime != "" && c.memory != 0 && c.timeout != 0 && c.role != ""

/-- How `Function.Open` ends (the file decode step is upstream of the config
passed in; see `Open`). -/
inductive OpenResult where
  /-- validation and runtime resolution passed -/
  | ok
  /-- `validator.Validate` failed: "error opening function ..." -/
  | validationError
  /-- `runtime.ByName` failed (unknown runtime identifier) -/
  | runtimeError
  deriving Repr, DecidableEq

/-- The runtime identifier `Open` validates and resolves: when the config
leaves runtime empty, `runtime.Detect` may fill it in. -/
def effectiveRuntime (detected : Option String) (c : Config) : String :=
  if c.runtime = "" then
    match detected with
    | some r => r
    | none => ""
  else c.runtime

/-- `Function.Open` after the optional function.json decode produced `c`
(a missing file leaves the config as is): detect the runtime when unset, run
`validator.Validate`, then resolve the runtime with `runtime.ByName`
(`resolves` says which identifiers the external runtime registry knows). -/
def Open (resolves : String → Bool) (detected : Option String) (c : Config) : OpenResult :=
  let c := { c with runtime := effectiveRuntime detected c }
  if !(validateConfig c) then .validationError
  else if resolves c.runtime then .ok
  else .runtimeError

/-! ## Helper predicates on actions -/

/-- Is this action a `CreateFunction` call? -/
def isCreateCall : Action → Bool
  | Action.createFunction _ _ => true
  | _ => false

/-- Is this action an `UpdateFunctionCode` call? -/
def isUpdateCodeCall : Action → Bool
  | Action.updateFunctionCode _ _ => true
  | _ => false

/-- Is this action an alias write (`CreateAlias` or `UpdateAlias`)? -/
def isAliasWrite : Action → Bool
  | Action.createAlias _ _ => true
  | Action.updateAlias _ _ => true
  | _ => false

end Apex

namespace Apex

/-- Claim C1: after building the artifact and querying remote state,
DeployCode runs Create (exactly one CreateFunction call, no UpdateFunctionCode
call) when the query fails with the not-found code; propagates any other query
error with no remote mutation; performs zero remote mutations, logs
"unchanged" and succeeds when the local hash equals the remote CodeSha256; and
otherwise runs Update (exactly one UpdateFunctionCode call, no CreateFunction
call). -/
theorem deployCode_decision (sha : Bytes → String) (env : DeployCodeEnv) (zip : Bytes)
    (hzip : env.zipRes = .ok zip) :
    (∀ message, env.infoRes = .error (Err.aws "ResourceNotFoundException" message) →
      DeployCode sha env =
        ⟨(Create env.createEnv zip).mutations,
         "deploying" :: (Create env.createEnv zip).logs,
         (Create env.createEnv zip).result⟩ ∧
      (DeployCode sha env).mutations.countP isCreateCall = 1 ∧
      (DeployCode sha env).mutations.countP isUpdateCodeCall = 0)
  ∧ (∀ e, env.infoRes = .error e →
      (∀ message, e ≠ Err.aws "ResourceNotFoundException" message) →
      DeployCode sha env = ⟨[], ["deploying"], .err e⟩)
  ∧ (∀ info, env.infoRes = .ok info → sha zip = info.codeSha256 →
      DeployCode sha env = ⟨[], ["deploying", "unchanged"], .ok ()⟩)
  ∧ (∀ info, env.infoRes = .ok info → sha zip ≠ info.codeSha256 →
      DeployCode sha env =
        ⟨(Update env.updateEnv zip).mutations,
         "deploying" :: (Update env.updateEnv zip).logs,
         (Update env.updateEnv zip).result⟩ ∧
      (DeployCode sha env).mutations.countP isUpdateCodeCall = 1 ∧
      (DeployCode sha env).mutations.countP isCreateCall = 0) := by
  refine ⟨?_, ?_, ?_, ?_⟩
  · intro message hinfo
    have hmain : DeployCode sha env =
        ⟨(Create env.createEnv zip).mutations,
         "deploying" :: (Create env.createEnv zip).logs,
         (Create env.createEnv zip).result⟩ := by
      simp [DeployCode, hzip, hinfo]
    refine ⟨hmain, ?_, ?_⟩ <;> rw [hmain] <;>
      rcases h : env.createEnv.createFunctionRes with e | v <;>
        simp [Create, h, isCreateCall, isUpdateCodeCall]
  · intro e hinfo hne
    cases e with
    | aws code message =>
      have hcode : (code == "ResourceNotFoundException") = false := by
        rcases h : code == "ResourceNotFoundException" with _ | _
        · rfl
        · exact absurd (by rw [eq_of_beq h]) (hne message)
      simp [DeployCode, hzip, hinfo, hcode]
    | generic message => simp [DeployCode, hzip, hinfo]
    | invocation ie => simp [DeployCode, hzip, hinfo]
  · intro info hinfo heq
    simp [DeployCode, hzip, hinfo, heq]
  · intro info hinfo hne
    have hb : (sha zip == info.codeSha256) = false := by
      simpa using hne
    have hmain : DeployCode sha env =
        ⟨(Update env.updateEnv zip).mutations,
         "deploying" :: (Update env.updateEnv zip).logs,
         (Update env.updateEnv zip).result⟩ := by
      simp [DeployCode, hzip, hinfo, hb]
    refine ⟨hmain, ?_, ?_⟩ <;> rw [hmain] <;>
      rcases h : env.updateEnv.updateFunctionCodeRes with e | v <;>
        simp [Update, h, isCreateCall, isUpdateCodeCall]

/-- Witness for C1 at a concrete environment: remote hash equal to the local
hash gives no mutation, the "unchanged" log and success. -/
theorem deployCode_decision_witness :
    DeployCode (fun _ => "h") ⟨.ok [7], .ok ⟨"h"⟩, ⟨.ok "1", .ok ()⟩, ⟨.ok "2", .ok ()⟩⟩ =
      ⟨[], ["deploying", "unchanged"], .ok ()⟩ :=
  (deployCode_decision (fun _ => "h") ⟨.ok [7], .ok ⟨"h"⟩, ⟨.ok "1", .ok ()⟩, ⟨.ok "2", .ok ()⟩⟩
    [7] rfl).2.2.1 ⟨"h"⟩ rfl rfl

/-- Claim C2: after reading alias "current" and dropping the leading entry of
the version listing, Rollback fails with the precondition error and writes no
alias when fewer than two versions remain; otherwise, for every remaining list
of length at least two and every current alias value, it issues exactly one
UpdateAlias of "current", targeting the last remaining version, or the
second-to-last when the alias already points at the last. -/
theorem rollback_decision (current sentinel : String) (vs : List String)
    (u : Except Err Unit) :
    (vs.length < 2 →
      Rollback ⟨.ok current, .ok (sentinel :: vs), u⟩ =
        ⟨[], ["rolling back", "current version: " ++ current],
         .err (Err.generic "Can\x27t rollback. Only one version deployed.")⟩)
  ∧ (2 ≤ vs.length →
      (Rollback ⟨.ok current, .ok (sentinel :: vs), u⟩).mutations =
        [Action.updateAlias CurrentAlias
          (if current = vs.getD (vs.length - 1) ""
           then vs.getD (vs.length - 2) ""
           else vs.getD (vs.length - 1) "")]) := by
  constructor
  · intro hlt
    simp [Rollback, hlt]
  · intro hge
    have hlt : ¬ vs.length < 2 := not_lt.mpr hge
    by_cases hc : current = vs.getD (vs.length - 1) "" <;>
      simp [Rollback, hlt, hc]

/-- Witness for C2 at the concrete listing [$LATEST, 1, 2, 3] with the alias
at 3: the rollback target is 2. -/
theorem rollback_decision_witness :
    (Rollback ⟨.ok "3", .ok ["$LATEST", "1", "2", "3"], .ok ()⟩).mutations =
      [Action.updateAlias CurrentAlias "2"] := by
  have h := (rollback_decision "3" "$LATEST" ["1", "2", "3"] (.ok ())).2 (by decide)
  simpa using h

/-- Claim C3: RollbackVersion fails with the precondition error and writes
nothing when the requested version equals the one the "current" alias resolves
to; for every other version string it issues exactly one UpdateAlias of
"current" to that version, with no local check against the version history
(the version is universally quantified and no listing is consulted). -/
theorem rollbackVersion_decision (current version : String) (u : Except Err Unit) :
    (version = current →
      RollbackVersion ⟨.ok current, u⟩ version =
        ⟨[], ["rolling back", "current version: " ++ current],
         .err (Err.generic "Specified version currently deployed.")⟩)
  ∧ (version ≠ current →
      RollbackVersion ⟨.ok current, u⟩ version =
        ⟨[Action.updateAlias CurrentAlias version],
         ["rolling back", "current version: " ++ current],
         match u with
         | .error e => .err e
         | .ok _ => .ok ()⟩) := by
  constructor
  · intro heq
    simp [RollbackVersion, heq]
  · intro hne
    simp [RollbackVersion, hne]

/-- Witness for C3: rolling back to a version absent from any history still
writes the alias to it exactly once. -/
theorem rollbackVersion_decision_witness :
    RollbackVersion ⟨.ok "5", .ok ()⟩ "99" =
      ⟨[Action.updateAlias CurrentAlias "99"],
       ["rolling back", "current version: 5"], .ok ()⟩ :=
  (rollbackVersion_decision "5" "99" (.ok ())).2 (by decide)

/-- Claim C9: Rollback slices off the first element of the version listing
before checking the length, so an empty listing panics (out-of-range slice)
with no alias write instead of reaching the precondition error, while any
non-empty listing never panics. -/
theorem rollback_empty_listing (current : String) (u : Except Err Unit) :
    Rollback ⟨.ok current, .ok [], u⟩ =
      ⟨[], ["rolling back", "current version: " ++ current], .panicked⟩
  ∧ (∀ v vs, (Rollback ⟨.ok current, .ok (v :: vs), u⟩).result ≠ Result.panicked) := by
  constructor
  · simp [Rollback]
  · intro v vs
    by_cases hlt : vs.length < 2
    · simp [Rollback, hlt]
    · rcases u with e | _ <;> simp [Rollback, hlt]

/-- Witness for C9: a concrete empty listing panics; the concrete listing
[$LATEST, 1] does not. -/
theorem rollback_empty_listing_witness :
    Rollback ⟨.ok "1", .ok [], .ok ()⟩ =
      ⟨[], ["rolling back", "current version: 1"], .panicked⟩
  ∧ (Rollback ⟨.ok "1", .ok ["$LATEST", "1"], .ok ()⟩).result ≠ Result.panicked :=
  ⟨(rollback_empty_listing "1" (.ok ())).1,
   (rollback_empty_listing "1" (.ok ())).2 "$LATEST" ["1"]⟩

/-- Claim C6: Create and Update each end with exactly one alias write setting
"current" to the version returned by the preceding CreateFunction /
UpdateFunctionCode call, and when that preceding call fails they return its
error with no alias write attempted. -/
theorem create_update_alias_write (cEnv : CreateEnv) (uEnv : UpdateEnv)
    (zipC zipU : Bytes) :
    (∀ v, cEnv.createFunctionRes = .ok v →
      (Create cEnv zipC).mutations =
        [Action.createFunction zipC true, Action.createAlias CurrentAlias v])
  ∧ (∀ e, cEnv.createFunctionRes = .error e →
      Create cEnv zipC = ⟨[Action.createFunction zipC true], ["creating function"], .err e⟩)
  ∧ (∀ v, uEnv.updateFunctionCodeRes = .ok v →
      (Update uEnv zipU).mutations =
        [Action.updateFunctionCode zipU true, Action.updateAlias CurrentAlias v])
  ∧ (∀ e, uEnv.updateFunctionCodeRes = .error e →
      Update uEnv zipU = ⟨[Action.updateFunctionCode zipU true], ["updating function"], .err e⟩) := by
  refine ⟨?_, ?_, ?_, ?_⟩ <;> intro x hx
  · simp [Create, hx]
  · simp [Create, hx]
  · simp [Update, hx]
  · simp [Update, hx]

/-- Witness for C6 at concrete environments: a successful CreateFunction
returning version 4 is followed by exactly one alias write to 4, and a failing
UpdateFunctionCode yields its error with no alias write. -/
theorem create_update_alias_write_witness :
    (Create ⟨.ok "4", .ok ()⟩ [1]).mutations =
      [Action.createFunction [1] true, Action.createAlias CurrentAlias "4"]
  ∧ Update ⟨.error (Err.generic "boom"), .ok ()⟩ [2] =
      ⟨[Action.updateFunctionCode [2] true], ["updating function"],
       .err (Err.generic "boom")⟩ :=
  ⟨(create_update_alias_write ⟨.ok "4", .ok ()⟩ ⟨.ok "", .ok ()⟩ [1] [2]).1 "4" rfl,
   (create_update_alias_write ⟨.ok "4", .ok ()⟩ ⟨.error (Err.generic "boom"), .ok ()⟩ [1] [2]).2.2.2
     (Err.generic "boom") rfl⟩

/-- Claim C4: when the Invoke response carries a function-error marker and the
payload decodes, Invoke returns no reply or log stream — its outcome is a
single failure — and that failure is the typed InvokeError whose message, type
and stack frames come from the decoded payload and whose Handled flag is the
out-of-band marker compared against "Handled". -/
theorem invoke_functionError_typed (env : InvokeEnv) (kind : String) (ev ctx : Bytes)
    (res : InvokeResponse) (marker msg ty : String) (st : List String)
    (hev : env.eventBytes = .ok ev)
    (hctx : env.contextBytes = .ok ctx)
    (hres : env.invokeRes (mkInvokeInput env kind ev ctx) = .ok res)
    (hmark : res.functionError = some marker)
    (hdec : env.unmarshalInvokeError res.payload = .ok (msg, ty, st)) :
    Invoke env kind = .failed (Err.invocation ⟨msg, ty, st, marker == "Handled"⟩) := by
  simp [Invoke, hev, hctx, hres, hmark, hdec]

/-- Witness for C4 at a concrete environment: an Unhandled function error with
a decodable payload surfaces as the typed InvokeError with handled = false. -/
theorem invoke_functionError_typed_witness :
    Invoke
      ⟨.ok [1], .ok [2], fun _ => .ok ⟨some "Unhandled", [123], none⟩,
       fun _ => .ok ("boom", "TypeError", ["frame0"]), fun _ => "ctx", fun _ => []⟩
      RequestResponse =
      .failed (Err.invocation ⟨"boom", "TypeError", ["frame0"], false⟩) :=
  invoke_functionError_typed
    ⟨.ok [1], .ok [2], fun _ => .ok ⟨some "Unhandled", [123], none⟩,
     fun _ => .ok ("boom", "TypeError", ["frame0"]), fun _ => "ctx", fun _ => []⟩
    RequestResponse [1] [2] ⟨some "Unhandled", [123], none⟩ "Unhandled" "boom" "TypeError"
    ["frame0"] rfl rfl rfl rfl rfl

/-- Claim C5: an asynchronous (Event) invocation whose remote call succeeds
with no function-error marker returns a zero-length reply stream and a
zero-length log stream. -/
theorem invoke_event_empty_streams (env : InvokeEnv) (ev ctx : Bytes)
    (res : InvokeResponse)
    (hev : env.eventBytes = .ok ev)
    (hctx : env.contextBytes = .ok ctx)
    (hres : env.invokeRes (mkInvokeInput env Event ev ctx) = .ok res)
    (hmark : res.functionError = none) :
    Invoke env Event = .streams [] [] := by
  simp [Invoke, hev, hctx, hres, hmark]

/-- Witness for C5 at a concrete environment: a successful Event invocation
yields two empty streams even though the remote returned payload bytes. -/
theorem invoke_event_empty_streams_witness :
    Invoke
      ⟨.ok [1], .ok [2], fun _ => .ok ⟨none, [9, 9], some "bG9n"⟩,
       fun _ => .error "unused", fun _ => "ctx", fun _ => [1, 2, 3]⟩
      Event = .streams [] [] :=
  invoke_event_empty_streams
    ⟨.ok [1], .ok [2], fun _ => .ok ⟨none, [9, 9], some "bG9n"⟩,
     fun _ => .error "unused", fun _ => "ctx", fun _ => [1, 2, 3]⟩
    [1] [2] ⟨none, [9, 9], some "bG9n"⟩ rfl rfl rfl rfl

/-- Claim C10: when the response carries a function-error marker but the
payload does not decode as the error shape, Invoke returns the json decoding
error itself — still no reply or log stream — and that error is not the typed
InvokeError. -/
theorem invoke_functionError_undecodable (env : InvokeEnv) (kind : String)
    (ev ctx : Bytes) (res : InvokeResponse) (marker m : String)
    (hev : env.eventBytes = .ok ev)
    (hctx : env.contextBytes = .ok ctx)
    (hres : env.invokeRes (mkInvokeInput env kind ev ctx) = .ok res)
    (hmark : res.functionError = some marker)
    (hdec : env.unmarshalInvokeError res.payload = .error m) :
    Invoke env kind = .failed (Err.generic m)
    ∧ ∀ ie, Err.generic m ≠ Err.invocation ie := by
  constructor
  · simp [Invoke, hev, hctx, hres, hmark, hdec]
  · intro ie h
    cases h

/-- Witness for C10 at a concrete environment: an undecodable error payload
surfaces the json error, not an InvokeError. -/
theorem invoke_functionError_undecodable_witness :
    Invoke
      ⟨.ok [1], .ok [2], fun _ => .ok ⟨some "Unhandled", [0], none⟩,
       fun _ => .error "invalid character", fun _ => "ctx", fun _ => []⟩
      RequestResponse = .failed (Err.generic "invalid character")
    ∧ Err.generic "invalid character" ≠ Err.invocation ⟨"", "", [], false⟩ := by
  have h := invoke_functionError_undecodable
    ⟨.ok [1], .ok [2], fun _ => .ok ⟨some "Unhandled", [0], none⟩,
     fun _ => .error "invalid character", fun _ => "ctx", fun _ => []⟩
    RequestResponse [1] [2] ⟨some "Unhandled", [0], none⟩ "Unhandled" "invalid character"
    rfl rfl rfl rfl rfl
  exact ⟨h.1, h.2 ⟨"", "", [], false⟩⟩

/-- Claim C7: with the build step passing and the archive calls succeeding,
the archive holds, besides the source files, exactly the two fixed shim
entries "index.js" and "byline.js" at the root when the runtime is shimmed and
neither when it is not, and exactly one ".env.json" entry with the marshalled
environment when env vars are set and none when unset. -/
theorem zip_shim_and_env_entries (e : ZipEnv) (files : List ZipEntry)
    (hb : e.compiled = false ∨ e.buildRes = .ok ())
    (hd : e.addDirRes = .ok files)
    (hc : e.closeRes = .ok ()) :
    (e.shimmed = true → ∀ vars, e.envVars = some vars →
      Zip e = .ok ([⟨".env.json", e.marshalEnv vars⟩,
                    ⟨"index.js", e.indexJs⟩, ⟨"byline.js", e.bylineJs⟩] ++ files))
  ∧ (e.shimmed = true → e.envVars = none →
      Zip e = .ok ([⟨"index.js", e.indexJs⟩, ⟨"byline.js", e.bylineJs⟩] ++ files))
  ∧ (e.shimmed = false → ∀ vars, e.envVars = some vars →
      Zip e = .ok ([⟨".env.json", e.marshalEnv vars⟩] ++ files))
  ∧ (e.shimmed = false → e.envVars = none →
      Zip e = .ok files) := by
  have hbuild : (if e.compiled then e.buildRes else Except.ok ()) = Except.ok () := by
    rcases hb with hb | hb
    · simp [hb]
    · by_cases hcp : e.compiled <;> simp [hcp, hb]
  refine ⟨?_, ?_, ?_, ?_⟩
  · intro hs vars hv
    simp [Zip, hbuild, hd, hc, hs, hv]
  · intro hs hn
    simp [Zip, hbuild, hd, hc, hs, hn]
  · intro hs vars hv
    simp [Zip, hbuild, hd, hc, hs, hv]
  · intro hs hn
    simp [Zip, hbuild, hd, hc, hs, hn]

/-- Witness for C7 at a concrete environment: shimmed runtime with env vars
set yields the env entry, the two shim entries and then the source file. -/
theorem zip_shim_and_env_entries_witness :
    Zip ⟨false, .ok (), some [("K", "V")], fun _ => [123], true, [10], [20],
         .ok [⟨"main.py", [1]⟩], .ok ()⟩ =
      .ok [⟨".env.json", [123]⟩, ⟨"index.js", [10]⟩, ⟨"byline.js", [20]⟩,
           ⟨"main.py", [1]⟩] := by
  have h := (zip_shim_and_env_entries
    ⟨false, .ok (), some [("K", "V")], fun _ => [123], true, [10], [20],
     .ok [⟨"main.py", [1]⟩], .ok ()⟩
    [⟨"main.py", [1]⟩] (Or.inl rfl) rfl rfl).1 rfl [("K", "V")] rfl
  simpa using h

/-- Counterexample to claim C8 as stated: a configuration with memory = -1
(so memory ≤ 0) but a positive timeout, a non-empty role and a resolvable
runtime passes Open — the `nonzero` validator tag only rejects the zero
value, not negatives. -/
theorem open_negative_memory_accepted :
    Open (fun _ => true) none ⟨"", "nodejs4.3", -1, 3, "lambda-role"⟩ = OpenResult.ok
    ∧ (-1 : Int) ≤ 0 :=
  ⟨rfl, by decide⟩

/-- Claim C8 amended: Open fails for every configuration whose memory or
timeout is exactly zero, whose role is empty, or whose effective runtime
identifier (after detection) does not resolve to a known runtime; no such
configuration passes Open. (The original "memory ≤ 0 / timeout ≤ 0" is too
strong: the nonzero validation passes negative values.) -/
theorem open_validation_failure (resolves : String → Bool) (detected : Option String)
    (c : Config)
    (h : c.memory = 0 ∨ c.timeout = 0 ∨ c.role = "" ∨
         resolves (effectiveRuntime detected c) = false) :
    Open resolves detected c ≠ OpenResult.ok := by
  intro hok
  unfold Open at hok
  rcases h with h | h | h | h
  · simp [validateConfig, h] at hok
  · simp [validateConfig, h] at hok
  · simp [validateConfig, h] at hok
  · rcases hv : validateConfig { c with runtime := effectiveRuntime detected c } with _ | _
    · simp [hv] at hok
    · simp [hv, h] at hok

/-- Witness for the amended C8: a configuration with memory = 0 is rejected. -/
theorem open_validation_failure_witness :
    Open (fun _ => true) none ⟨"", "golang", 0, 3, "r"⟩ ≠ OpenResult.ok :=
  open_validation_failure (fun _ => true) none ⟨"", "golang", 0, 3, "r"⟩ (Or.inl rfl)

end Apex
